import Mathlib

/-!
Verification of the connection/session management and request pipeline of
`src/api/index.ts` (class `AtelierAPI`), via a shallow embedding.

Conventions of the embedding:
- JavaScript strings are Lean `String`s; cookie strings are modelled as
  `List Char` so that name extraction and prefix matching are fully
  computable (a JS string is exactly its character sequence).
- JS `undefined`-able values are `Option`s; JS truthiness of a string is
  "not empty", of a number "not zero", of an object/array "present".
- `workspaceState.get(key, default)` lookups for one connection are a record
  of `Option`-valued overrides; `get` is `Option.getD`.
- `Promise.reject()/throw` outcomes are an `Except` error value; the external
  sinks touched by the pipeline (status-bar panel, output channel, console,
  setTimeout queue) are explicit fields of a pipeline state record.
-/

/-! ## Cookie session cache: `updateCookies` (src/api/index.ts lines 145-157) -/

/-- A cookie string, as its character sequence. -/
abbrev Cookie := List Char

/-- The cookie's name: `cookie.split("=")[0]`, i.e. the characters before the
first `=` (the whole string when no `=` occurs). -/
def cookieName (cookie : Cookie) : Cookie :=
  cookie.takeWhile (· ≠ '=')

/-- One iteration of the `newCookies.forEach` loop of `updateCookies`:
`cookies.findIndex((el) => el.startsWith(cookieName))` followed by
`cookies[index] = cookie` when found, else `cookies.push(cookie)`.
Replacing the first matching element (else appending) is written as direct
recursion on the stored list. -/
def updateCookie (cookies : List Cookie) (cookie : Cookie) : List Cookie :=
  match cookies with
  | [] => [cookie]
  | el :: rest =>
    if (cookieName cookie).isPrefixOf el then cookie :: rest
    else el :: updateCookie rest cookie

/-- `updateCookies(newCookies)`: fold the per-cookie merge over the incoming
cookies, starting from the cached list (src/api/index.ts lines 145-157). -/
def updateCookies (cookies newCookies : List Cookie) : List Cookie :=
  List.foldl updateCookie cookies newCookies

/-- Merge by exact cookie-name equality, as the specification describes it
("an incoming cookie replaces the stored entry with the same name").
Written from the spec's words, for comparison with `updateCookie`. -/
def updateCookieByName (cookies : List Cookie) (cookie : Cookie) : List Cookie :=
  match cookies with
  | [] => [cookie]
  | el :: rest =>
    if cookieName el = cookieName cookie then cookie :: rest
    else el :: updateCookieByName rest cookie

/-- Fold of `updateCookieByName`, the spec's description of `updateCookies`. -/
def updateCookiesByName (cookies newCookies : List Cookie) : List Cookie :=
  List.foldl updateCookieByName cookies newCookies

/-! ## Connection settings (src/api/index.ts lines 18, 24-37, 54-81, 117-128) -/

/-- `DEFAULT_API_VERSION` (src/api/index.ts line 18). -/
def DEFAULT_API_VERSION : Nat := 1

/-- The `ConnectionSettings` interface (src/api/index.ts lines 24-37).
`https` is the `https: boolean` field; `docker` is `isContainerized`. -/
structure ConnectionSettings where
  serverName : String
  active : Bool
  apiVersion : Nat
  https : Bool
  host : String
  port : Nat
  pathPrefix : String
  ns : String
  username : String
  password : String
  docker : Bool
  dockerService : Option String
deriving DecidableEq

/-- The runtime-learned overrides stored in `workspaceState` under keys
`configName + ":host"`, `":port"`, `":password"`, `":apiVersion"`,
`":docker"`, `":dockerService"`; `none` means no stored override. -/
structure WorkspaceOverrides where
  host : Option String
  port : Option Nat
  password : Option String
  apiVersion : Option Nat
  docker : Option Bool
  dockerService : Option (Option String)
deriving DecidableEq

/-- The `config` getter (src/api/index.ts lines 54-81): merges the static
`_config` with the `workspaceState` overrides. `externalServer` is the
instance flag of the same name; `namespace` the instance field set by
`setNamespace` / the constructor. -/
def configGet (conf : ConnectionSettings) (externalServer : Bool)
    (nsp : String) (ws : WorkspaceOverrides) : ConnectionSettings :=
  { serverName := conf.serverName
    active := conf.active
    apiVersion := ws.apiVersion.getD DEFAULT_API_VERSION
    https := conf.https
    host := if externalServer then conf.host else ws.host.getD conf.host
    port := if externalServer then conf.port else ws.port.getD conf.port
    pathPrefix := conf.pathPrefix
    ns := if nsp ≠ "" then nsp else conf.ns
    username := conf.username
    password := ws.password.getD conf.password
    docker := ws.docker.getD false
    dockerService := ws.dockerService.getD none }

/-- The `active` getter (src/api/index.ts lines 125-128):
`!!this._config.active && host.length > 0 && port > 0`, where `host` and
`port` are taken from the `config` getter. -/
def activeGetter (conf : ConnectionSettings) (externalServer : Bool)
    (nsp : String) (ws : WorkspaceOverrides) : Bool :=
  let cfg := configGet conf externalServer nsp ws
  conf.active && cfg.host.length > 0 && decide (cfg.port > 0)

/-! ## setConnection (src/api/index.ts lines 159-202) -/

/-- Model of `String.prototype.toLowerCase` (the Lean library lowering is not
kernel-reducible, so the map over characters is spelled out). -/
def jsToLower (s : String) : String := ⟨s.data.map Char.toLower⟩

/-- The fields of the `conn` configuration block (`config("conn", ...)`) that
`setConnection` reads: an optional `server` name plus a
`ConnectionSettings`-shaped remainder used verbatim when no server name
resolves (src/api/index.ts lines 165, 198-200). -/
structure ConnSpec where
  server : Option String
  conf : ConnectionSettings
deriving DecidableEq

/-- The result of `getResolvedConnectionSpec(...)` that `setConnection`
destructures: `webServer: { scheme, host, port, pathPrefix = "" }` plus
`username` and `password` (src/api/index.ts lines 171-176). -/
structure WebServerSpec where
  scheme : String
  host : String
  port : Nat
  pathPrefix : String
  username : String
  password : String
deriving DecidableEq

/-- `setConnection(workspaceFolderName, namespace?)`
(src/api/index.ts lines 159-202). `serversHas` models
`config("intersystems.servers").has(serverName)`; `wsApiVersion` the stored
`configName + ":apiVersion"` override. Returns the `externalServer` flag and
the `_config` field. -/
def setConnection (workspaceFolderName nsp : String)
    (serversHas : String → Bool) (conn : ConnSpec) (spec : WebServerSpec)
    (wsApiVersion : Option Nat) : Bool × ConnectionSettings :=
  let serverName0 := jsToLower workspaceFolderName
  let externalServer := serversHas serverName0
  let serverName :=
    if externalServer then serverName0
    else match conn.server with
      | some sv => sv
      | none => ""
  if serverName ≠ "" then
    let cfg0 : ConnectionSettings :=
      { serverName := serverName
        active := externalServer || conn.conf.active
        apiVersion := wsApiVersion.getD DEFAULT_API_VERSION
        https := spec.scheme = "https"
        ns := if nsp ≠ "" then nsp else conn.conf.ns
        host := spec.host
        port := spec.port
        username := spec.username
        password := spec.password
        pathPrefix := spec.pathPrefix
        docker := false
        dockerService := none }
    -- Report server as inactive when no namespace has been determined
    -- (src/api/index.ts lines 191-196).
    let cfg := if cfg0.ns = "" ∧ externalServer then { cfg0 with active := false } else cfg0
    (externalServer, cfg)
  else
    (externalServer,
      { conn.conf with
          ns := if nsp ≠ "" then nsp else conn.conf.ns
          serverName := "" })

/-! ## Query-string construction: `buildParams` (src/api/index.ts lines 242-256) -/

/-- A dynamically-typed query-parameter value. -/
inductive JsVal where
  | vbool (b : Bool)
  | vstr (s : String)
  | vnum (n : Int)
  | vnull
deriving DecidableEq

/-- JS truthiness of a parameter value. -/
def jsTruthy : JsVal → Bool
  | .vbool b => b
  | .vstr s => s ≠ ""
  | .vnum n => n ≠ 0
  | .vnull => false

/-- JS string interpolation of a parameter value. -/
def jsShow : JsVal → String
  | .vbool b => if b then "true" else "false"
  | .vstr s => s
  | .vnum n => n.repr
  | .vnull => "null"

/-- The `result` array built by `buildParams`' `Object.keys(params).forEach`
loop: `key=1`/`key=0` for booleans, `key=value` for other truthy non-empty
values, nothing otherwise, in input iteration order
(src/api/index.ts lines 246-254). Pushing inside the loop is written as
direct recursion over the entries. -/
def buildParamsList (params : List (String × JsVal)) : List String :=
  match params with
  | [] => []
  | (key, value) :: rest =>
    match value with
    | .vbool b => (key ++ "=" ++ (if b then "1" else "0")) :: buildParamsList rest
    | v =>
      if jsTruthy v then (key ++ "=" ++ jsShow v) :: buildParamsList rest
      else buildParamsList rest

/-- `buildParams()` (src/api/index.ts lines 242-256): empty string when no
params object, else the joined entries behind a `?` when any exist. -/
def buildParams (params : Option (List (String × JsVal))) : String :=
  match params with
  | none => ""
  | some ps =>
    let result := buildParamsList ps
    if result.isEmpty then "" else "?" ++ String.intercalate "&" result

/-! ## Response envelope (src/api/atelier typing; src/api/index.ts lines 328-358) -/

/-- An element of a `result.content` object array; only the `action` field
matters to the pipeline (studio-action detection, line 342). -/
structure ContentObj where
  action : Option String
deriving DecidableEq

/-- The dynamic value of `result.content`: an array of strings (possibly
base64 fragments), an array of objects, or the raw byte buffer that replaces
the fragments after decoding. -/
inductive ContentVal where
  | strs (fs : List String)
  | objs (os : List ContentObj)
  | bytes (bs : List Nat)
deriving DecidableEq

/-- `content.length` of a `ContentVal`. -/
def contentLength : ContentVal → Nat
  | .strs fs => fs.length
  | .objs os => os.length
  | .bytes bs => bs.length

/-- Whether `content[0] != undefined && content[0].action != undefined`
(non-objects have no `action` property). -/
def contentHeadAction : ContentVal → Bool
  | .objs (o :: _) => o.action.isSome
  | _ => false

/-- `content.join("")`; the pipeline only ever joins string arrays
(`enc=true` content), the other shapes are irrelevant to the claims and
join to the empty string here. -/
def contentJoin : ContentVal → String
  | .strs fs => String.join fs
  | _ => ""

/-- `result` of the response envelope. -/
structure ResultObj where
  status : String
  content : Option ContentVal
  enc : Bool
deriving DecidableEq

/-- `status` of the response envelope. -/
structure StatusObj where
  summary : String
deriving DecidableEq

/-- The parsed JSON response envelope (`Atelier.Response`). -/
structure Envelope where
  status : StatusObj
  console : Option (List String)
  result : ResultObj
deriving DecidableEq

/-! ## Base64 decoding of encoded content

`Buffer.from(str, "base64")` is the Node.js runtime's forgiving decoder, a
collaborator outside this repository: alphabet characters accumulate into
sextet groups, a full group of four emits three bytes, a padding `=` flushes
the pending group (two sextets give one byte, three give two), and any other
character is skipped. -/

/-- Value of one base64 alphabet character, `none` for non-alphabet input. -/
def b64Val (c : Char) : Option Nat :=
  if 'A' ≤ c ∧ c ≤ 'Z' then some (c.toNat - 'A'.toNat)
  else if 'a' ≤ c ∧ c ≤ 'z' then some (c.toNat - 'a'.toNat + 26)
  else if '0' ≤ c ∧ c ≤ '9' then some (c.toNat - '0'.toNat + 52)
  else if c = '+' then some 62
  else if c = '/' then some 63
  else none

/-- Bytes produced by a (possibly partial) group of sextets. -/
def b64Emit : List Nat → List Nat
  | [a, b] => [a * 4 + b / 16]
  | [a, b, c] => [a * 4 + b / 16, (b % 16) * 16 + c / 4]
  | [a, b, c, d] => [a * 4 + b / 16, (b % 16) * 16 + c / 4, (c % 4) * 64 + d]
  | _ => []

/-- The decoding loop over the character sequence, carrying the pending
group of fewer than four sextets. -/
def b64Go : List Char → List Nat → List Nat
  | [], acc => b64Emit acc
  | ch :: rest, acc =>
    match b64Val ch with
    | some v =>
      if acc.length == 3 then b64Emit (acc ++ [v]) ++ b64Go rest []
      else b64Go rest (acc ++ [v])
    | none =>
      if ch = '=' then b64Emit acc ++ b64Go rest []
      else b64Go rest acc

/-- `Buffer.from(s, "base64")` as a byte list. -/
def base64Decode (s : String) : List Nat :=
  b64Go s.data []

/-- The encoded-content normalization (src/api/index.ts lines 331-335):
when `data.result.enc` and `data.result.content` are truthy, set `enc` to
false and replace `content` with the bytes of the base64-decoded
concatenation of its elements. -/
def decodeContent (data : Envelope) : Envelope :=
  match data.result.content, data.result.enc with
  | some c, true =>
    { data with
        result :=
          { status := data.result.status
            enc := false
            content := some (.bytes (base64Decode (contentJoin c))) } }
  | _, _ => data

/-! ## Request pipeline (src/api/index.ts lines 215-370) -/

/-- The constructor's `wsOrFile` record: a workspace-folder name or a
document URI (URIs abstracted to their string form); stored only when
`retryAfter401` (src/api/index.ts lines 93-96). -/
inductive WsRef where
  | folder (name : String)
  | uri (u : String)
deriving DecidableEq

/-- One `setTimeout(() => checkConnection(true, ctx), delayMs)` registration
(src/api/index.ts lines 310-312). -/
structure Timer where
  delayMs : Nat
  force : Bool
  ctx : Option String
deriving DecidableEq

/-- The per-request instance data the response handler reads: the
`username@host:port` auth-map target, the stored `wsOrFile`, the `connInfo`
display string, the effective username and the normalized path prefix. -/
structure SelfInfo where
  target : String
  wsOrFile : Option WsRef
  connInfo : String
  username : String
  pathPrefix : String
deriving DecidableEq

/-- The mutable state the pipeline touches: the pending-auth map (its set of
keys), the session-cookie cache for this connection identity, the status-bar
panel text and tooltip, the scheduled re-check timers, the output-channel
lines and the console-sink line batches. -/
structure PState where
  authMap : List String
  cookies : List Cookie
  panelText : String
  panelTooltip : String
  timers : List Timer
  outputLines : List String
  consoleOut : List (List String)
deriving DecidableEq

/-- A rejected request outcome: `Promise.reject()` with no value,
`Promise.reject(message)`, a thrown `{ statusCode, message }` object, or a
thrown `Error(message)` from envelope classification. -/
inductive ReqError where
  | emptyReject
  | msgReject (message : String)
  | httpErr (statusCode : Nat) (message : String)
  | envErr (message : String)
deriving DecidableEq

/-- A resolved request outcome: the session cookies (HEAD short-circuit) or
the parsed envelope. -/
inductive ReqValue where
  | cookieList (cs : List Cookie)
  | envelope (data : Envelope)
deriving DecidableEq

deriving instance DecidableEq for Except

/-- An HTTP response as the pipeline consumes it: status, status text,
`Set-Cookie` headers, and the already-parsed JSON body (JSON parsing itself
is outside the model). -/
structure HttpResponse where
  status : Nat
  statusText : String
  setCookie : List Cookie
  body : Envelope
deriving DecidableEq

/-- `response.ok` of the fetch API: status in the 200-299 range. -/
def respOk (resp : HttpResponse) : Bool :=
  200 ≤ resp.status ∧ resp.status < 300

/-- Studio-action detection (src/api/index.ts lines 338-342):
`content != undefined && content.length !== 0 && content[0] != undefined &&
content[0].action != undefined`. -/
def isStudioAction (data : Envelope) : Bool :=
  match data.result.content with
  | some c => contentLength c ≠ 0 && contentHeadAction c
  | none => false

/-- Envelope error classification (src/api/index.ts lines 347-358): a
non-empty `result.status` is appended to the output channel and thrown;
otherwise a non-empty `status.summary` is thrown; otherwise `result.status`
is checked once more (the duplicate check); otherwise the envelope is
returned. -/
def classifyStep (st : PState) (data : Envelope) : PState × Except ReqError ReqValue :=
  if data.result.status ≠ "" then
    ({ st with outputLines := st.outputLines ++ [data.result.status] },
     .error (.envErr data.result.status))
  else if data.status.summary ≠ "" then
    (st, .error (.envErr data.status.summary))
  else if data.result.status ≠ "" then
    (st, .error (.envErr data.result.status))
  else
    (st, .ok (.envelope data))

/-- The same classification written from the specification's words: the
claimed exact precedence result-status, then status-summary, then the
duplicate result-status check, then success. -/
def classifySpec (st : PState) (data : Envelope) : PState × Except ReqError ReqValue :=
  if data.result.status ≠ "" then
    ({ st with outputLines := st.outputLines ++ [data.result.status] },
     .error (.envErr data.result.status))
  else if data.status.summary ≠ "" then
    (st, .error (.envErr data.status.summary))
  else if data.result.status ≠ "" then
    (st, .error (.envErr data.result.status))
  else
    (st, .ok (.envelope data))

/-- Model of `String.prototype.toUpperCase` (`method = method.toUpperCase()`,
src/api/index.ts line 257). -/
def jsToUpper (s : String) : String := ⟨s.data.map Char.toUpper⟩

/-- The `ctx` passed to `checkConnection` by the 401 re-check timer:
`typeof this.wsOrFile === "object" ? this.wsOrFile : undefined`
(src/api/index.ts line 311). -/
def wsRefCtx : WsRef → Option String
  | .folder _ => none
  | .uri u => some u

/-- The response-handling tail of `request` (src/api/index.ts lines 307-358),
as a state transformer from the received response to the settled outcome:
the 401 branch, cookie merge, panel update, HEAD short-circuit, non-2xx
check, content decoding, console forwarding and envelope classification. -/
def handleResponse (self : SelfInfo) (method : String) (noOutput : Bool)
    (resp : HttpResponse) (st : PState) : PState × Except ReqError ReqValue :=
  if resp.status = 401 then
    ({ st with
        authMap := st.authMap.filter (· ≠ self.target)
        timers :=
          match self.wsOrFile with
          | some w => st.timers ++ [{ delayMs := 1000, force := true, ctx := wsRefCtx w }]
          | none => st.timers },
     .error (.httpErr resp.status resp.statusText))
  else
    let st1 :=
      { st with
          cookies := updateCookies st.cookies resp.setCookie
          panelText := self.connInfo
          panelTooltip :=
            "Connected" ++ (if self.pathPrefix ≠ "" then " to " ++ self.pathPrefix else "")
              ++ " as " ++ self.username }
    if method = "HEAD" then
      ({ st1 with authMap := st1.authMap.filter (· ≠ self.target) },
       .ok (.cookieList st1.cookies))
    else if ¬ respOk resp then
      (st1, .error (.httpErr resp.status resp.statusText))
    else
      let data := decodeContent resp.body
      let st2 :=
        match data.console with
        | some lines =>
          if ¬ isStudioAction data ∧ ¬ noOutput then
            { st1 with consoleOut := st1.consoleOut ++ [lines] }
          else st1
        | none => st1
      classifyStep st2 data

/-- The request pipeline (src/api/index.ts lines 215-370) up to its
observable outcome: the inactive/missing-host-or-port fast rejection, the
minimum-API-version rejection (both before any network activity), then the
network call and `handleResponse`. The middle component of the result
records whether the network call was performed. -/
def requestModel (cfg : ConnectionSettings) (minVersion : Nat) (method : String)
    (path : String) (self : SelfInfo) (noOutput : Bool) (resp : HttpResponse)
    (st : PState) : PState × Bool × Except ReqError ReqValue :=
  if ¬ cfg.active ∨ cfg.port = 0 ∨ cfg.host = "" then
    (st, false, .error .emptyReject)
  else if minVersion > cfg.apiVersion then
    (st, false, .error (.msgReject (path ++ " not supported by API version "
      ++ toString cfg.apiVersion)))
  else
    let (st1, res) := handleResponse self (jsToUpper method) noOutput resp st
    (st1, true, res)

/-! ## Authentication coordinator (src/api/index.ts lines 21-22, 278-291, 307-308, 319-321, 360-361)

The cooperative single-threaded scheduling of concurrent `request` calls for
one fixed `username@host:port` target, as a transition system. Handshake
promises are numbered in creation order. A request's synchronous prefix
(lines 278-291: read cookies, read `authRequestMap`, possibly create the
HEAD probe and store its promise, pick the promise to await) runs without an
intervening suspension point, so it is one atomic step. The
`authRequestMap.delete(target)` calls at lines 308 (every 401), 320 (HEAD
completion) and 361 (connection refused) delete whatever entry is stored for
the target, whichever promise it is: the HEAD probe settles in one abstract
step that clears the map entry and may or may not leave a non-empty cookie
set behind, and every other request that settles does or does not clear the
map entry depending on whether its own fetch ended in 401/connection-refused
(`del401` below) — even when the stored entry is a newer, still-live
probe. -/

/-- No stored runtime overrides. -/
def wsNone : WorkspaceOverrides :=
  { host := none, port := none, password := none, apiVersion := none
    docker := none, dockerService := none }

/-- Overrides for host and port only. -/
def wsHostPort : WorkspaceOverrides :=
  { wsNone with host := some "otherhost", port := some 8080 }

/-- A static configuration whose docker flag is set and whose static API
version is 2. -/
def sampleConf : ConnectionSettings :=
  { serverName := "srv", active := true, apiVersion := 2, https := false
    host := "localhost", port := 52773, pathPrefix := "", ns := "USER"
    username := "u", password := "pw", docker := true, dockerService := none }

/-- An all-empty pipeline state. -/
def pst0 : PState :=
  { authMap := [], cookies := [], panelText := "", panelTooltip := ""
    timers := [], outputLines := [], consoleOut := [] }

/-- An envelope with no error indications. -/
def envOk : Envelope :=
  { status := { summary := "" }, console := none
    result := { status := "", content := none, enc := false } }

/-- An envelope with a non-empty `result.status`. -/
def envResultErr : Envelope :=
  { envOk with result := { status := "ERROR 100", content := none, enc := false } }

/-- An envelope with an empty `result.status` and a non-empty `status.summary`. -/
def envSummaryErr : Envelope :=
  { envOk with status := { summary := "oops" } }

/-- An envelope carrying encoded content: two base64 fragments. -/
def envEnc : Envelope :=
  { envOk with result := { status := "", content := some (.strs ["QQ==", "QQ=="]), enc := true } }

/-- A 401 response. -/
def resp401 : HttpResponse :=
  { status := 401, statusText := "Unauthorized", setCookie := [], body := envOk }

/-- A 200 response with the encoded-content envelope. -/
def resp200enc : HttpResponse :=
  { status := 200, statusText := "OK", setCookie := [], body := envEnc }

/-- Request instance data with no stored `wsOrFile`. -/
def selfNoCtx : SelfInfo :=
  { target := "u@localhost:52773", wsOrFile := none, connInfo := "localhost:52773[USER]"
    username := "u", pathPrefix := "" }

/-- Request instance data with a stored document URI. -/
def selfWithCtx : SelfInfo :=
  { selfNoCtx with wsOrFile := some (.uri "isfs://conn/A.cls") }

/-- A `conn` configuration block with no namespace. -/
def connNoNs : ConnSpec :=
  { server := none, conf := { sampleConf with ns := "" } }

/-- A resolved external-server web-server spec. -/
def specSample : WebServerSpec :=
  { scheme := "http", host := "localhost", port := 52773, pathPrefix := ""
    username := "u", password := "pw" }

/-- A cookie's name is always a prefix of the cookie string. -/
theorem cookieName_isPrefix (c : Cookie) : (cookieName c).isPrefixOf c = true := by
  rw [ List.isPrefixOf_iff_prefix]
  exact List.takeWhile_prefix _

/-- A single-cookie merge is idempotent: the first stored entry matching the
cookie's name is the cookie itself after the first merge. -/
theorem updateCookie_idem (cookies : List Cookie) (c : Cookie) :
    updateCookie (updateCookie cookies c) c = updateCookie cookies c := by
  induction cookies with
  | nil => simp [updateCookie, cookieName_isPrefix]
  | cons el rest ih =>
    by_cases h : (cookieName c).isPrefixOf el
    · simp [updateCookie, h, cookieName_isPrefix]
    · simp [updateCookie, h, ih]

/-- Claim C3 (counterexample): `updateCookies` matches stored entries with
`startsWith`, not by exact cookie name. With prior cookie `ab=1`, the
incoming cookie `a=2` replaces it (its name `a` is a prefix of `ab=1`),
whereas merging by name would keep `ab=1` and append `a=2`; and for the
repeated input `["ab=1","a=2"]` the merge is not idempotent. -/
theorem updateCookies_not_byName :
    updateCookies [("ab=1").toList] [("a=2").toList] = [("a=2").toList]
    ∧ updateCookiesByName [("ab=1").toList] [("a=2").toList]
        = [("ab=1").toList, ("a=2").toList]
    ∧ updateCookies (updateCookies [] [("ab=1").toList, ("a=2").toList])
          [("ab=1").toList, ("a=2").toList]
        ≠ updateCookies [] [("ab=1").toList, ("a=2").toList] := by
  refine ⟨by decide, by decide, by decide⟩

/-- Claim C3 (amended): `updateCookies` merges by prefix match: an incoming
cookie replaces the first stored entry that starts with the incoming
cookie's name (the text before its first `=`), else is appended, preserving
order of first appearance; a single-cookie update is idempotent; and
`["a=1","b=2"]` updated with `["a=3"]` yields exactly `["a=3","b=2"]`. -/
theorem updateCookies_prefix_merge :
    (∀ (cookies : List Cookie) (c : Cookie),
      updateCookies cookies [c] =
        (match cookies.findIdx? (fun el => (cookieName c).isPrefixOf el) with
          | some i => cookies.set i c
          | none => cookies ++ [c]))
    ∧ (∀ (cookies : List Cookie) (c : Cookie),
      updateCookies (updateCookies cookies [c]) [c] = updateCookies cookies [c])
    ∧ updateCookies [("a=1").toList, ("b=2").toList] [("a=3").toList]
        = [("a=3").toList, ("b=2").toList] := by
  have hsingle : ∀ (cookies : List Cookie) (c : Cookie),
      updateCookies cookies [c] = updateCookie cookies c := fun _ _ => rfl
  refine ⟨?_, ?_, by decide⟩
  · intro cookies c
    rw [hsingle]
    induction cookies with
    | nil => simp [updateCookie]
    | cons el rest ih =>
      by_cases h : (cookieName c).isPrefixOf el
      · simp [updateCookie, h, List.findIdx?_cons]
      · simp only [updateCookie, h, if_false, List.findIdx?_cons, h, Bool.false_eq_true,
          ite_false, ih]
        cases hfi : rest.findIdx? (fun el => (cookieName c).isPrefixOf el) with
        | none => simp [List.findIdx?_succ, hfi]
        | some i => simp [List.findIdx?_succ, hfi]
  · intro cookies c
    rw [hsingle, hsingle, updateCookie_idem]

/-- Claim C8: the built query string serializes booleans as `1`/`0`, any
other value only when truthy (empty strings, zero, null are omitted), in
input iteration order; and the concrete object
`flag: true, name: "", count: 0, x: "v"` encodes to `flag=1&x=v`. -/
theorem buildParams_serialization :
    (∀ ps : List (String × JsVal),
      buildParamsList ps = ps.filterMap (fun kv =>
        match kv.2 with
        | .vbool b => some (kv.1 ++ "=" ++ (if b then "1" else "0"))
        | v => if jsTruthy v then some (kv.1 ++ "=" ++ jsShow v) else none))
    ∧ buildParams (some
        [("flag", .vbool true), ("name", .vstr ""), ("count", .vnum 0), ("x", .vstr "v")])
      = "?flag=1&x=v" := by
  refine ⟨?_, by decide⟩
  intro ps
  induction ps with
  | nil => rfl
  | cons kv rest ih =>
    obtain ⟨key, value⟩ := kv
    cases value with
    | vbool b => simp [buildParamsList, List.filterMap_cons, ih]
    | vstr s =>
      by_cases h : jsTruthy (JsVal.vstr s) = true
      · simp [buildParamsList, List.filterMap_cons, h, ih]
      · simp only [Bool.not_eq_true] at h
        simp [buildParamsList, List.filterMap_cons, h, ih]
    | vnum n =>
      by_cases h : jsTruthy (JsVal.vnum n) = true
      · simp [buildParamsList, List.filterMap_cons, h, ih]
      · simp only [Bool.not_eq_true] at h
        simp [buildParamsList, List.filterMap_cons, h, ih]
    | vnull => simp [buildParamsList, List.filterMap_cons, jsTruthy, ih]

/-- Claim C2 (counterexample): the `config` getter does not fall back to the
static field for every overridable field. With no stored overrides, `docker`
falls back to `false` (not the static `true`) and `apiVersion` falls back to
`DEFAULT_API_VERSION = 1` (not the static `2`); and for an external-server
connection a stored host/port override is ignored in favour of the static
value. -/
theorem configGet_not_pure_layering :
    ((configGet sampleConf false "" wsNone).docker ≠ wsNone.docker.getD sampleConf.docker)
    ∧ ((configGet sampleConf false "" wsNone).apiVersion
        ≠ wsNone.apiVersion.getD sampleConf.apiVersion)
    ∧ ((configGet sampleConf true "" wsHostPort).host
        ≠ wsHostPort.host.getD sampleConf.host)
    ∧ ((configGet sampleConf true "" wsHostPort).port
        ≠ wsHostPort.port.getD sampleConf.port) := by
  refine ⟨by decide, by decide, by decide, by decide⟩

/-- Claim C2 (amended): the `config` getter layers runtime state over static
configuration as follows: `password` is the stored override if present, else
the static value; `host` and `port` are the static values for an
external-server connection and otherwise the stored override if present,
else the static value; `apiVersion` is the stored override if present, else
`DEFAULT_API_VERSION`; `docker` is the stored override if present, else
`false`. -/
theorem configGet_layering :
    ∀ (conf : ConnectionSettings) (ext : Bool) (nsp : String) (ws : WorkspaceOverrides),
      (configGet conf ext nsp ws).password = ws.password.getD conf.password
      ∧ (configGet conf ext nsp ws).host
          = (if ext then conf.host else ws.host.getD conf.host)
      ∧ (configGet conf ext nsp ws).port
          = (if ext then conf.port else ws.port.getD conf.port)
      ∧ (configGet conf ext nsp ws).apiVersion = ws.apiVersion.getD DEFAULT_API_VERSION
      ∧ (configGet conf ext nsp ws).docker = ws.docker.getD false := by
  intro conf ext nsp ws
  exact ⟨rfl, rfl, rfl, rfl, rfl⟩

/-- Claim C4: envelope classification follows the exact claimed precedence:
a non-empty `result.status` is written to the output channel and rejected
with that message; otherwise a non-empty `status.summary` is rejected with
that message; otherwise the duplicate `result.status` check; otherwise the
call resolves with the envelope. `classifySpec` is that precedence written
from the specification's words. -/
theorem classifyStep_precedence :
    ∀ (st : PState) (data : Envelope),
      classifyStep st data = classifySpec st data
      ∧ (data.result.status ≠ "" →
          classifyStep st data =
            ({ st with outputLines := st.outputLines ++ [data.result.status] },
             .error (.envErr data.result.status)))
      ∧ (data.result.status = "" → data.status.summary ≠ "" →
          classifyStep st data = (st, .error (.envErr data.status.summary)))
      ∧ (data.result.status = "" → data.status.summary = "" →
          classifyStep st data = (st, .ok (.envelope data))) := by
  intro st data
  refine ⟨rfl, ?_, ?_, ?_⟩
  · intro h
    simp [classifyStep, h]
  · intro h1 h2
    simp [classifyStep, h1, h2]
  · intro h1 h2
    simp [classifyStep, h1, h2]

/-- Claim C4 (witness): the three classification outcomes at concrete
envelopes, by the precedence theorem. -/
theorem classifyStep_precedence_witness :
    classifyStep pst0 envResultErr =
      ({ pst0 with outputLines := pst0.outputLines ++ ["ERROR 100"] },
       .error (.envErr "ERROR 100"))
    ∧ classifyStep pst0 envSummaryErr = (pst0, .error (.envErr "oops"))
    ∧ classifyStep pst0 envOk = (pst0, .ok (.envelope envOk)) :=
  ⟨(classifyStep_precedence pst0 envResultErr).2.1 (by decide),
   (classifyStep_precedence pst0 envSummaryErr).2.2.1 (by decide) (by decide),
   (classifyStep_precedence pst0 envOk).2.2.2 (by decide) (by decide)⟩

/-- Claim C5: an inactive connection, an unset port or an empty host rejects
immediately with no value and no network call; a `minVersion` above the
negotiated `apiVersion` rejects with the `not supported by API version`
message, also with no network call (the middle component of the result
records whether the network call happened). -/
theorem request_fast_failures :
    ∀ (cfg : ConnectionSettings) (minVersion : Nat) (method path : String)
      (self : SelfInfo) (noOutput : Bool) (resp : HttpResponse) (st : PState),
      ((cfg.active = false ∨ cfg.port = 0 ∨ cfg.host = "") →
        requestModel cfg minVersion method path self noOutput resp st
          = (st, false, .error .emptyReject))
      ∧ (cfg.active = true → cfg.port ≠ 0 → cfg.host ≠ "" →
          minVersion > cfg.apiVersion →
          requestModel cfg minVersion method path self noOutput resp st
            = (st, false, .error (.msgReject
                (path ++ " not supported by API version " ++ toString cfg.apiVersion)))) := by
  intro cfg minVersion method path self noOutput resp st
  constructor
  · intro h
    rcases h with h | h | h <;> simp [requestModel, h]
  · intro ha hp hh hv
    simp [requestModel, ha, hp, hh, hv]

/-- Claim C5 (witness): an inactive connection rejects with no value, and a
`minVersion` of 3 against the negotiated version 2 rejects with the message,
both without a network call, by the fast-failure theorem. -/
theorem request_fast_failures_witness :
    requestModel { sampleConf with active := false } 1 "GET" "USER/docnames"
        selfNoCtx false resp401 pst0 = (pst0, false, .error .emptyReject)
    ∧ requestModel sampleConf 3 "GET" "USER/docnames" selfNoCtx false resp401 pst0
        = (pst0, false, .error (.msgReject
            ("USER/docnames" ++ " not supported by API version " ++ toString sampleConf.apiVersion))) :=
  ⟨(request_fast_failures { sampleConf with active := false } 1 "GET" "USER/docnames"
      selfNoCtx false resp401 pst0).1 (Or.inl (by decide)),
   (request_fast_failures sampleConf 3 "GET" "USER/docnames"
      selfNoCtx false resp401 pst0).2 (by decide) (by decide) (by decide) (by decide)⟩

/-- Claim C7: the `active` getter returns true only when the static active
flag is set, the effective host is non-empty and the effective port is
positive; and a connection resolved through an external-server definition
with an empty resolved namespace is forced inactive even when the static
definition is active. -/
theorem active_requires_host_port_ns :
    (∀ (conf : ConnectionSettings) (ext : Bool) (nsp : String) (ws : WorkspaceOverrides),
      activeGetter conf ext nsp ws = true →
        conf.active = true
        ∧ (configGet conf ext nsp ws).host ≠ ""
        ∧ (configGet conf ext nsp ws).port > 0)
    ∧ (∀ (wsName nsp : String) (serversHas : String → Bool) (conn : ConnSpec)
        (spec : WebServerSpec) (wsv : Option Nat),
        serversHas (jsToLower wsName) = true → jsToLower wsName ≠ "" →
        nsp = "" → conn.conf.ns = "" →
        (setConnection wsName nsp serversHas conn spec wsv).2.active = false) := by
  constructor
  · intro conf ext nsp ws h
    simp only [activeGetter, Bool.and_eq_true, decide_eq_true_eq] at h
    obtain ⟨⟨ha, hh⟩, hp⟩ := h
    refine ⟨ha, ?_, hp⟩
    intro hc
    rw [hc] at hh
    simp at hh
  · intro wsName nsp serversHas conn spec wsv hext hname hnsp hns
    simp [setConnection, hext, hname, hnsp, hns]

/-- Claim C7 (witness): the getter's conclusions at a concrete active
configuration, and the forced-inactive result for the external server
`SRV` resolved with no namespace, by the main theorem. -/
theorem active_requires_host_port_ns_witness :
    (sampleConf.active = true
      ∧ (configGet sampleConf false "" wsNone).host ≠ ""
      ∧ (configGet sampleConf false "" wsNone).port > 0)
    ∧ (setConnection "SRV" "" (fun s => s == "srv") connNoNs specSample none).2.active
        = false :=
  ⟨active_requires_host_port_ns.1 sampleConf false "" wsNone (by decide),
   active_requires_host_port_ns.2 "SRV" "" (fun s => s == "srv") connNoNs specSample none
     (by decide) (by decide) rfl (by decide)⟩

/-- Claim C9: when `result.enc` is true and `result.content` is a non-empty
list of base64 fragments, the decoding step concatenates the fragments,
base64-decodes the concatenation once, replaces the content with the raw
bytes and clears `enc` (so a second pass is a no-op); and
`["QQ==","QQ=="]` decodes to the bytes of `"AA"` (65, 65). -/
theorem decodeContent_normalizes :
    (∀ (data : Envelope) (fs : List String),
      data.result.enc = true → data.result.content = some (.strs fs) → fs ≠ [] →
      (decodeContent data).result.enc = false
      ∧ (decodeContent data).result.content
          = some (.bytes (base64Decode (String.join fs)))
      ∧ (decodeContent data).result.status = data.result.status
      ∧ decodeContent (decodeContent data) = decodeContent data)
    ∧ base64Decode (String.join ["QQ==", "QQ=="]) = [65, 65] := by
  refine ⟨?_, by decide⟩
  intro data fs henc hcontent _
  simp [decodeContent, hcontent, henc, contentJoin]

/-- Claim C9 (witness): the concrete envelope carrying fragments
`["QQ==","QQ=="]` decodes to the bytes 65, 65 with `enc` cleared, by the
normalization theorem. -/
theorem decodeContent_normalizes_witness :
    (decodeContent envEnc).result.enc = false
    ∧ (decodeContent envEnc).result.content
        = some (.bytes (base64Decode (String.join ["QQ==", "QQ=="])))
    ∧ (decodeContent envEnc).result.status = envEnc.result.status
    ∧ decodeContent (decodeContent envEnc) = decodeContent envEnc :=
  decodeContent_normalizes.1 envEnc ["QQ==", "QQ=="] (by decide) (by decide) (by decide)

/-- Claim C6 (counterexample): a 401 response does not always schedule a
re-check: when the request records no originating workspace/file context
(`wsOrFile` unset), no timer is scheduled at all, though the entry is
dropped and the call rejects with the status code and text. -/
theorem handle401_no_ctx_no_recheck :
    (handleResponse selfNoCtx "GET" false resp401 pst0).1.timers = []
    ∧ (handleResponse selfNoCtx "GET" false resp401 pst0).2
        = .error (.httpErr 401 "Unauthorized") := by
  refine ⟨by decide, by decide⟩

/-- Claim C6 (amended): on a 401 response, `request` deletes the
pending-auth entry for the request's target and rejects with an error
carrying the status code and status text; when the originating
workspace/file context was recorded at construction it schedules exactly one
connectivity re-check with a 1-second non-blocking delay against that
context (none otherwise); and a second 401 before the first re-check fires
appends a second, non-deduplicated re-check. -/
theorem handle401_recheck :
    ∀ (self : SelfInfo) (method : String) (noOutput : Bool) (resp : HttpResponse)
      (st : PState), resp.status = 401 →
      (handleResponse self method noOutput resp st).2
          = .error (.httpErr 401 resp.statusText)
      ∧ (handleResponse self method noOutput resp st).1.authMap
          = st.authMap.filter (· ≠ self.target)
      ∧ (∀ w, self.wsOrFile = some w →
          (handleResponse self method noOutput resp st).1.timers
            = st.timers ++ [{ delayMs := 1000, force := true, ctx := wsRefCtx w }])
      ∧ (self.wsOrFile = none →
          (handleResponse self method noOutput resp st).1.timers = st.timers)
      ∧ (∀ w, self.wsOrFile = some w →
          (handleResponse self method noOutput resp
              (handleResponse self method noOutput resp st).1).1.timers
            = st.timers ++ [{ delayMs := 1000, force := true, ctx := wsRefCtx w },
                { delayMs := 1000, force := true, ctx := wsRefCtx w }]) := by
  intro self method noOutput resp st h
  refine ⟨?_, ?_, ?_, ?_, ?_⟩
  · simp [handleResponse, h]
  · simp [handleResponse, h]
  · intro w hw
    simp [handleResponse, h, hw]
  · intro hw
    simp [handleResponse, h, hw]
  · intro w hw
    simp [handleResponse, h, hw]

/-- Claim C6 (witness): the amended behaviour at a concrete 401 against a
request that recorded a document URI, twice in a row, by the amended
theorem. -/
theorem handle401_recheck_witness :
    (handleResponse selfWithCtx "GET" false resp401 pst0).2
        = .error (.httpErr 401 resp401.statusText)
    ∧ (handleResponse selfWithCtx "GET" false resp401 pst0).1.authMap
        = pst0.authMap.filter (· ≠ selfWithCtx.target)
    ∧ (handleResponse selfWithCtx "GET" false resp401 pst0).1.timers
        = pst0.timers ++ [{ delayMs := 1000, force := true, ctx := wsRefCtx (.uri "isfs://conn/A.cls") }]
    ∧ (handleResponse selfWithCtx "GET" false resp401
          (handleResponse selfWithCtx "GET" false resp401 pst0).1).1.timers
        = pst0.timers ++ [{ delayMs := 1000, force := true, ctx := wsRefCtx (.uri "isfs://conn/A.cls") },
            { delayMs := 1000, force := true, ctx := wsRefCtx (.uri "isfs://conn/A.cls") }] :=
  ⟨(handle401_recheck selfWithCtx "GET" false resp401 pst0 (by decide)).1,
   (handle401_recheck selfWithCtx "GET" false resp401 pst0 (by decide)).2.1,
   (handle401_recheck selfWithCtx "GET" false resp401 pst0 (by decide)).2.2.1
     (.uri "isfs://conn/A.cls") (by decide),
   (handle401_recheck selfWithCtx "GET" false resp401 pst0 (by decide)).2.2.2.2
     (.uri "isfs://conn/A.cls") (by decide)⟩

/-- Claim C10: on a 401 response the rejection happens before the
cookie-merge and status-update steps: the session-cookie cache, the
status-indicator text and tooltip, the output channel and the console sink
are all left unchanged; only the pending-auth map entry and the scheduled
re-check timer differ. -/
theorem handle401_frame :
    ∀ (self : SelfInfo) (method : String) (noOutput : Bool) (resp : HttpResponse)
      (st : PState), resp.status = 401 →
      (handleResponse self method noOutput resp st).1.cookies = st.cookies
      ∧ (handleResponse self method noOutput resp st).1.panelText = st.panelText
      ∧ (handleResponse self method noOutput resp st).1.panelTooltip = st.panelTooltip
      ∧ (handleResponse self method noOutput resp st).1.outputLines = st.outputLines
      ∧ (handleResponse self method noOutput resp st).1.consoleOut = st.consoleOut := by
  intro self method noOutput resp st h
  refine ⟨?_, ?_, ?_, ?_, ?_⟩ <;> simp [handleResponse, h]

/-- Claim C10 (witness): the frame condition at a concrete 401 response with
`Set-Cookie` headers present and a non-empty starting state, by the frame
theorem. -/
theorem handle401_frame_witness :
    (handleResponse selfWithCtx "GET" false
        { resp401 with setCookie := [("sessionid=1").toList] }
        { pst0 with cookies := [("a=1").toList], panelText := "x" }).1.cookies
      = [("a=1").toList]
    ∧ (handleResponse selfWithCtx "GET" false
        { resp401 with setCookie := [("sessionid=1").toList] }
        { pst0 with cookies := [("a=1").toList], panelText := "x" }).1.panelText = "x" :=
  ⟨(handle401_frame selfWithCtx "GET" false
      { resp401 with setCookie := [("sessionid=1").toList] }
      { pst0 with cookies := [("a=1").toList], panelText := "x" } (by decide)).1,
   (handle401_frame selfWithCtx "GET" false
      { resp401 with setCookie := [("sessionid=1").toList] }
      { pst0 with cookies := [("a=1").toList], panelText := "x" } (by decide)).2.1⟩

